import Mathlib

/-!
Shallow embedding of `app/src/drivers/zsw_display_control.c` from the
ZSWatch repository, together with theorems checking the natural-language
specification of the display control subsystem against the code.

Modelling conventions:
* The four hardware handles (`display_dev`, `display_blk`, `reg_dev`,
  `touch_dev`) are represented by a record of readiness booleans plus the
  backlight PWM period; `device_is_ready` on each is a field lookup.
  Readiness is fixed for the lifetime of the process (devices are not
  hot-plugged), so it is a parameter of every operation rather than state.
* The mutable globals `display_state`, `first_render_since_poweron` and
  `last_brightness` form the state record `DisplayCtrlSt`.
* Calls into the hardware layer (`pm_device_action_run`,
  `display_blanking_on/off`, `regulator_enable/disable`,
  `pwm_set_pulse_dt`, `k_work_schedule`, `k_work_cancel_delayable_sync`,
  `lv_obj_invalidate`) are recorded as an effect trace, in program order.
  Log statements are not effects.
* `__ASSERT` with a false condition is fatal in an asserts-enabled build;
  an operation that would trip an assertion returns `none`.
* The C build modelled is the ordinary hardware build (the
  `CONFIG_BOARD_NATIVE_POSIX` guard around the regulator calls is off).
* `uint8_t` / `uint32_t` arithmetic is `Nat` with explicit `% 2 ^ 32`
  where a `uint32_t` computation could wrap.
-/

/-- `display_state_t` from the source: the three states of the display
state machine. -/
inductive display_state_t where
  | awake
  | sleeping
  | powered_off
deriving DecidableEq, Repr

/-- The devices that receive power-management device actions. -/
inductive DevTarget where
  | display
  | touch
deriving DecidableEq, Repr

/-- `pm_device_action` values used by the driver. -/
inductive PmAction where
  | suspend
  | resume
  | turn_on
  | turn_off
deriving DecidableEq, Repr

/-- One observable call into the hardware / kernel layer, recorded in
program order. -/
inductive Effect where
  /-- `display_blanking_on(display_dev)` -/
  | blankingOn
  /-- `display_blanking_off(display_dev)` -/
  | blankingOff
  /-- `pm_device_action_run(dev, act)` -/
  | pmAction (dev : DevTarget) (act : PmAction)
  /-- `pwm_set_pulse_dt(&display_blk, pulse_width)` -/
  | setPulse (pulse_width : Nat)
  /-- `regulator_disable(reg_dev)` -/
  | regulatorDisable
  /-- `regulator_enable(reg_dev)` -/
  | regulatorEnable
  /-- `k_work_cancel_delayable_sync(&lvgl_work, ...)` -/
  | cancelRenderWork
  /-- `k_work_schedule(&lvgl_work, K_MSEC(ms))` -/
  | scheduleRenderWork (ms : Nat)
  /-- `lv_obj_invalidate(lv_scr_act())` -/
  | invalidateScreen
deriving DecidableEq, Repr

/-- Readiness of the four hardware handles, plus the backlight PWM
period (`display_blk.period`, a `uint32_t`). Computed once at boot from
the device tree and constant afterwards. -/
structure HwConfig where
  displayReady : Bool
  blkReady : Bool
  regReady : Bool
  touchReady : Bool
  period : Nat
deriving DecidableEq, Repr

/-- The mutable globals of `zsw_display_control.c`:
`display_state`, `first_render_since_poweron`, `last_brightness`. -/
structure DisplayCtrlSt where
  display_state : display_state_t
  first_render_since_poweron : Bool
  last_brightness : Nat
deriving DecidableEq, Repr

/-- `EALREADY` errno value (Zephyr libc). -/
def EALREADY : Int := 120

/-- `EIO_code` errno value (Zephyr libc). -/
def EIO_code : Int := 5

/-- The pulse width computed by `zsw_display_control_set_brightness`:
`percent * (display_blk.period / 100)` in C `uint32_t` arithmetic.
Note the parenthesisation: the period is divided by 100 first, with
integer division. -/
def brightnessPulse (hw : HwConfig) (percent : Nat) : Nat :=
  (percent * (hw.period / 100)) % 2 ^ 32

/-- `zsw_display_control_set_brightness(uint8_t percent)`.
Returns the new state and the effect trace, or `none` when the
`__ASSERT(percent >= 0 && percent <= 100, ...)` contract is violated
(only reachable when the backlight device is ready, since the readiness
check returns first). `pwm_set_pulse_dt` is treated as infallible, so
the second `__ASSERT` never fires. -/
def zsw_display_control_set_brightness (hw : HwConfig) (st : DisplayCtrlSt)
    (percent : Nat) : Option (DisplayCtrlSt × List Effect) :=
  if ¬ hw.blkReady then
    some (st, [])
  else if percent > 100 then
    none
  else
    let st' := if percent ≠ 0 then { st with last_brightness := percent } else st
    some (st', [Effect.setPulse (brightnessPulse hw percent)])

/-- `zsw_display_control_get_brightness(void)`. -/
def zsw_display_control_get_brightness (st : DisplayCtrlSt) : Nat :=
  st.last_brightness

/-- `zsw_display_control_sleep_ctrl(bool on)`.
Returns the new state, the `int` result code, and the effect trace;
`none` when an internal `set_brightness` call would trip its assertion. -/
def zsw_display_control_sleep_ctrl (hw : HwConfig) (st : DisplayCtrlSt)
    (on_ : Bool) : Option (DisplayCtrlSt × Int × List Effect) :=
  match st.display_state, on_ with
  | .awake, true =>
      -- "Display already awake"
      some (st, -EALREADY, [])
  | .awake, false =>
      -- "Put display to sleep"
      let st1 := { st with display_state := .sleeping }
      let e1 := [Effect.blankingOn, Effect.pmAction .display .suspend] ++
        (if hw.touchReady then [Effect.pmAction .touch .suspend] else [])
      match zsw_display_control_set_brightness hw st1 0 with
      | none => none
      | some (st2, e2) =>
          some (st2, 0,
            e1 ++ e2 ++ [Effect.cancelRenderWork, Effect.invalidateScreen])
  | .sleeping, true =>
      -- "Wake up display"
      let st1 := { st with display_state := .awake }
      let e1 := [Effect.pmAction .display .resume] ++
        (if hw.touchReady then [Effect.pmAction .touch .resume] else [])
      let r := if ¬ st1.first_render_since_poweron then
          zsw_display_control_set_brightness hw st1 st1.last_brightness
        else
          some (st1, [])
      match r with
      | none => none
      | some (st2, e2) =>
          some (st2, 0,
            e1 ++ e2 ++ [Effect.blankingOff, Effect.scheduleRenderWork 250])
  | .sleeping, false =>
      -- "Display already sleeping"
      some (st, -EALREADY, [])
  | .powered_off, _ =>
      -- "Display is OFF, ..."
      some (st, -EIO_code, [])

/-- `zsw_display_control_pwr_ctrl(bool on)`.
Total: no branch calls `set_brightness`, so no assertion can fire. -/
def zsw_display_control_pwr_ctrl (hw : HwConfig) (st : DisplayCtrlSt)
    (on_ : Bool) : DisplayCtrlSt × Int × List Effect :=
  match st.display_state, on_ with
  | .awake, _ =>
      -- power already on / "sleep before power off"; res stays -EALREADY
      (st, -EALREADY, [])
  | .sleeping, true =>
      (st, -EALREADY, [])
  | .sleeping, false =>
      if hw.regReady then
        ({ st with display_state := .powered_off }, 0,
          [Effect.regulatorDisable, Effect.pmAction .display .turn_off])
      else
        -- res was initialised to -EALREADY and is never updated here
        (st, -EALREADY, [])
  | .powered_off, true =>
      if hw.regReady then
        ({ st with display_state := display_state_t.sleeping
                   first_render_since_poweron := true }, 0,
          [Effect.regulatorEnable, Effect.pmAction .display .turn_on])
      else
        (st, -EALREADY, [])
  | .powered_off, false =>
      (st, -EALREADY, [])

/-- `lvgl_render(struct k_work *item)`: one run of the delayable render
work. `lv_task_handler()` is opaque; its returned recommended delay is
the parameter `next_update_in_ms`. -/
def lvgl_render (hw : HwConfig) (st : DisplayCtrlSt)
    (next_update_in_ms : Nat) : Option (DisplayCtrlSt × List Effect) :=
  if st.first_render_since_poweron then
    match zsw_display_control_set_brightness hw st st.last_brightness with
    | none => none
    | some (st2, e2) =>
        some ({ st2 with first_render_since_poweron := false },
          e2 ++ [Effect.scheduleRenderWork next_update_in_ms])
  else
    some (st, [Effect.scheduleRenderWork next_update_in_ms])

/-- The state established by `zsw_display_control_init`: the globals
start as `first_render_since_poweron = false`, `last_brightness = 30`,
and init sets `display_state = DISPLAY_STATE_SLEEPING`. -/
def zsw_display_control_init : DisplayCtrlSt :=
  { display_state := .sleeping
    first_render_since_poweron := false
    last_brightness := 30 }

/-- One externally triggerable operation of the subsystem. -/
inductive Op where
  | setBrightness (percent : Nat)
  | sleepCtrl (on_ : Bool)
  | pwrCtrl (on_ : Bool)
  | render (next_update_in_ms : Nat)
deriving DecidableEq, Repr

/-- Run one operation, keeping only the resulting state. -/
def stepOp (hw : HwConfig) (st : DisplayCtrlSt) : Op → Option DisplayCtrlSt
  | .setBrightness p => (zsw_display_control_set_brightness hw st p).map (·.1)
  | .sleepCtrl b => (zsw_display_control_sleep_ctrl hw st b).map (·.1)
  | .pwrCtrl b => some (zsw_display_control_pwr_ctrl hw st b).1
  | .render ms => (lvgl_render hw st ms).map (·.1)

/-- Run a sequence of operations. -/
def runOps (hw : HwConfig) (st : DisplayCtrlSt) : List Op → Option DisplayCtrlSt
  | [] => some st
  | op :: ops =>
      match stepOp hw st op with
      | none => none
      | some st' => runOps hw st' ops

/-! ## Fixtures: concrete hardware configurations and states -/

/-- All four devices ready, backlight period 10000. -/
def hwAll : HwConfig := ⟨true, true, true, true, 10000⟩

/-- Regulator absent; everything else ready. -/
def hwNoReg : HwConfig := ⟨true, true, false, true, 10000⟩

/-- Backlight control absent; everything else ready. -/
def hwNoBlk : HwConfig := ⟨true, false, true, true, 10000⟩

/-- Display panel not ready; everything else ready. -/
def hwNoPanel : HwConfig := ⟨false, true, true, true, 10000⟩

/-- No device ready at all. -/
def hwNone : HwConfig := ⟨false, false, false, false, 10000⟩

/-- All devices ready with a PWM period not divisible by 100. -/
def hwPeriod150 : HwConfig := ⟨true, true, true, true, 150⟩

/-- Awake state with the boot-default brightness. -/
def stAwake : DisplayCtrlSt := ⟨.awake, false, 30⟩

/-- The post-init state (sleeping, default brightness 30). -/
def stSleeping : DisplayCtrlSt := zsw_display_control_init

/-- Powered-off state with the boot-default brightness. -/
def stPoweredOff : DisplayCtrlSt := ⟨.powered_off, false, 30⟩

/-- Whether an effect is a backlight duty-cycle command
(`pwm_set_pulse_dt`). -/
def isPulseCmd : Effect → Bool
  | .setPulse _ => true
  | _ => false

/-! ## Helper lemmas about `set_brightness` -/

theorem set_brightness_not_ready (hw : HwConfig) (st : DisplayCtrlSt) (p : Nat)
    (h : hw.blkReady = false) :
    zsw_display_control_set_brightness hw st p = some (st, []) := by
  simp [zsw_display_control_set_brightness, h]

theorem set_brightness_ready (hw : HwConfig) (st : DisplayCtrlSt) (p : Nat)
    (hb : hw.blkReady = true) (hp : p ≤ 100) :
    zsw_display_control_set_brightness hw st p =
      some ((if p ≠ 0 then { st with last_brightness := p } else st),
        [Effect.setPulse (brightnessPulse hw p)]) := by
  simp [zsw_display_control_set_brightness, hb, Nat.not_lt.mpr hp]

theorem set_brightness_fields (hw : HwConfig) (st st' : DisplayCtrlSt)
    (p : Nat) (es : List Effect)
    (h : zsw_display_control_set_brightness hw st p = some (st', es)) :
    st'.display_state = st.display_state ∧
    st'.first_render_since_poweron = st.first_render_since_poweron ∧
    (st'.last_brightness = st.last_brightness ∨ st'.last_brightness = p) ∧
    (p = 0 → st'.last_brightness = st.last_brightness) := by
  rcases hw with ⟨d, blk, reg, t, per⟩
  cases blk
  · simp [zsw_display_control_set_brightness] at h
    obtain ⟨rfl, rfl⟩ := h
    simp
  · by_cases hp : p > 100
    · simp [zsw_display_control_set_brightness, hp] at h
    · by_cases h0 : p = 0
      · subst h0
        simp [zsw_display_control_set_brightness] at h
        obtain ⟨rfl, rfl⟩ := h
        simp
      · simp [zsw_display_control_set_brightness, hp, h0] at h
        obtain ⟨rfl, rfl⟩ := h
        exact ⟨rfl, rfl, Or.inr rfl, fun hc => absurd hc h0⟩

/-! ## Helper lemmas: full characterisation of `sleep_ctrl` per state -/

theorem sleep_ctrl_awake_true_eq (hw : HwConfig) (st : DisplayCtrlSt)
    (h : st.display_state = .awake) :
    zsw_display_control_sleep_ctrl hw st true = some (st, -EALREADY, []) := by
  rcases st with ⟨ds, fr, lb⟩
  cases ds
  · simp [zsw_display_control_sleep_ctrl]
  · simp at h
  · simp at h

theorem sleep_ctrl_awake_false_eq (hw : HwConfig) (st : DisplayCtrlSt)
    (h : st.display_state = .awake) :
    zsw_display_control_sleep_ctrl hw st false =
      some ({ st with display_state := .sleeping }, 0,
        [Effect.blankingOn, Effect.pmAction .display .suspend] ++
        (if hw.touchReady then [Effect.pmAction .touch .suspend] else []) ++
        (if hw.blkReady then [Effect.setPulse 0] else []) ++
        [Effect.cancelRenderWork, Effect.invalidateScreen]) := by
  rcases st with ⟨ds, fr, lb⟩
  cases ds
  · rcases hw with ⟨d, blk, reg, t, per⟩
    cases blk <;> cases t <;>
      simp [zsw_display_control_sleep_ctrl, zsw_display_control_set_brightness,
        brightnessPulse]
  · simp at h
  · simp at h

theorem sleep_ctrl_sleeping_true_eq (hw : HwConfig) (st : DisplayCtrlSt)
    (h : st.display_state = .sleeping) (hlb : st.last_brightness ≤ 100) :
    zsw_display_control_sleep_ctrl hw st true =
      some ({ st with display_state := .awake }, 0,
        [Effect.pmAction .display .resume] ++
        (if hw.touchReady then [Effect.pmAction .touch .resume] else []) ++
        (if st.first_render_since_poweron = false ∧ hw.blkReady = true then
          [Effect.setPulse (brightnessPulse hw st.last_brightness)] else []) ++
        [Effect.blankingOff, Effect.scheduleRenderWork 250]) := by
  rcases st with ⟨ds, fr, lb⟩
  cases ds
  · simp at h
  · rcases hw with ⟨d, blk, reg, t, per⟩
    simp only at hlb
    cases fr
    · cases blk <;> cases t <;>
        by_cases h0 : lb = 0 <;>
          simp [zsw_display_control_sleep_ctrl,
            zsw_display_control_set_brightness, Nat.not_lt.mpr hlb, h0]
    · cases blk <;> cases t <;>
        simp [zsw_display_control_sleep_ctrl]
  · simp at h

theorem sleep_ctrl_sleeping_false_eq (hw : HwConfig) (st : DisplayCtrlSt)
    (h : st.display_state = .sleeping) :
    zsw_display_control_sleep_ctrl hw st false = some (st, -EALREADY, []) := by
  rcases st with ⟨ds, fr, lb⟩
  cases ds
  · simp at h
  · simp [zsw_display_control_sleep_ctrl]
  · simp at h

theorem sleep_ctrl_powered_off_eq (hw : HwConfig) (st : DisplayCtrlSt)
    (b : Bool) (h : st.display_state = .powered_off) :
    zsw_display_control_sleep_ctrl hw st b = some (st, -EIO_code, []) := by
  rcases st with ⟨ds, fr, lb⟩
  cases ds
  · simp at h
  · simp at h
  · cases b <;> simp [zsw_display_control_sleep_ctrl]

/-! ## Claim theorems -/

/-- C1: `zsw_display_control_sleep_ctrl(on)` follows the sleep transition
table exactly: from Awake, on=true is a no-op returning `-EALREADY` and
on=false moves the state to Sleeping returning 0; from Sleeping, on=true
moves the state to Awake returning 0 and on=false is a no-op returning
`-EALREADY`; from PoweredOff both arguments are no-ops returning
`-EIO`; in every no-op case the state is unchanged. -/
theorem sleep_ctrl_matches_transition_table (hw : HwConfig)
    (st : DisplayCtrlSt) (b : Bool) (hlb : st.last_brightness ≤ 100) :
    (st.display_state = .awake → b = true →
      zsw_display_control_sleep_ctrl hw st b = some (st, -EALREADY, [])) ∧
    (st.display_state = .awake → b = false →
      ∃ es, zsw_display_control_sleep_ctrl hw st b =
        some ({ st with display_state := .sleeping }, 0, es)) ∧
    (st.display_state = .sleeping → b = true →
      ∃ es, zsw_display_control_sleep_ctrl hw st b =
        some ({ st with display_state := .awake }, 0, es)) ∧
    (st.display_state = .sleeping → b = false →
      zsw_display_control_sleep_ctrl hw st b = some (st, -EALREADY, [])) ∧
    (st.display_state = .powered_off →
      zsw_display_control_sleep_ctrl hw st b = some (st, -EIO_code, [])) := by
  refine ⟨?_, ?_, ?_, ?_, ?_⟩
  · rintro h rfl
    exact sleep_ctrl_awake_true_eq hw st h
  · rintro h rfl
    exact ⟨_, sleep_ctrl_awake_false_eq hw st h⟩
  · rintro h rfl
    exact ⟨_, sleep_ctrl_sleeping_true_eq hw st h hlb⟩
  · rintro h rfl
    exact sleep_ctrl_sleeping_false_eq hw st h
  · intro h
    exact sleep_ctrl_powered_off_eq hw st b h

/-- C1 witness: concrete instance (all devices ready, awake state,
`on = true`): a repeated wake request is a no-op returning `-EALREADY`. -/
theorem sleep_ctrl_matches_transition_table_witness :
    zsw_display_control_sleep_ctrl hwAll stAwake true =
      some (stAwake, -EALREADY, []) :=
  (sleep_ctrl_matches_transition_table hwAll stAwake true (by decide)).1
    (by decide) rfl

/-- C2 counterexample: from Sleeping with `on = false` and the regulator
not ready, `zsw_display_control_pwr_ctrl` is a no-op that returns
`-EALREADY` (the initialiser of `res`), not the claimed
HardwareUnavailable code `-EIO`. -/
theorem pwr_ctrl_not_ready_returns_ealready :
    hwNoReg.regReady = false ∧
    zsw_display_control_pwr_ctrl hwNoReg stSleeping false =
      (stSleeping, -EALREADY, []) ∧
    -EALREADY ≠ -EIO_code := by
  refine ⟨rfl, rfl, ?_⟩
  decide

/-- C2 (amended): `zsw_display_control_pwr_ctrl(on)` follows the power
transition table: from Sleeping with on=false, if the regulator is ready
the state becomes PoweredOff, the regulator is disabled, a panel
turn-off device action is issued and 0 is returned, else the call is a
no-op returning `-EALREADY` (not `-EIO`); from PoweredOff with on=true,
if the regulator is ready the state becomes Sleeping, the regulator is
enabled, a panel turn-on device action is issued,
`first_render_since_poweron` is set and 0 is returned, else a no-op
returning `-EALREADY` (not `-EIO`); every other state/argument
combination is a no-op returning `-EALREADY`. -/
theorem pwr_ctrl_matches_transition_table (hw : HwConfig)
    (st : DisplayCtrlSt) (b : Bool) :
    (st.display_state = .awake →
      zsw_display_control_pwr_ctrl hw st b = (st, -EALREADY, [])) ∧
    (st.display_state = .sleeping → b = true →
      zsw_display_control_pwr_ctrl hw st b = (st, -EALREADY, [])) ∧
    (st.display_state = .sleeping → b = false → hw.regReady = true →
      zsw_display_control_pwr_ctrl hw st b =
        ({ st with display_state := .powered_off }, 0,
          [Effect.regulatorDisable,
            Effect.pmAction .display .turn_off])) ∧
    (st.display_state = .sleeping → b = false → hw.regReady = false →
      zsw_display_control_pwr_ctrl hw st b = (st, -EALREADY, [])) ∧
    (st.display_state = .powered_off → b = true → hw.regReady = true →
      zsw_display_control_pwr_ctrl hw st b =
        ({ st with display_state := .sleeping
                   first_render_since_poweron := true }, 0,
          [Effect.regulatorEnable,
            Effect.pmAction .display .turn_on])) ∧
    (st.display_state = .powered_off → b = true → hw.regReady = false →
      zsw_display_control_pwr_ctrl hw st b = (st, -EALREADY, [])) ∧
    (st.display_state = .powered_off → b = false →
      zsw_display_control_pwr_ctrl hw st b = (st, -EALREADY, [])) := by
  rcases st with ⟨ds, fr, lb⟩
  rcases hw with ⟨d, blk, reg, t, per⟩
  cases ds <;> cases b <;> cases reg <;>
    simp [zsw_display_control_pwr_ctrl]

/-- C2 witness: concrete instance of the amended table: from Sleeping
with the regulator ready, power-off moves the state to PoweredOff,
disables the regulator, issues the panel turn-off action and returns 0. -/
theorem pwr_ctrl_matches_transition_table_witness :
    zsw_display_control_pwr_ctrl hwAll stSleeping false =
      ({ stSleeping with display_state := .powered_off }, 0,
        [Effect.regulatorDisable, Effect.pmAction .display .turn_off]) :=
  (pwr_ctrl_matches_transition_table hwAll stSleeping false).2.2.1
    rfl rfl rfl

/-! ## Outcome lemmas: every possible result of a transition call -/

theorem sleep_ctrl_outcome (hw : HwConfig) (st st' : DisplayCtrlSt)
    (b : Bool) (r : Int) (es : List Effect)
    (h : zsw_display_control_sleep_ctrl hw st b = some (st', r, es)) :
    (r = -EALREADY ∧ st' = st ∧ es = [] ∧
      ((st.display_state = .awake ∧ b = true) ∨
        (st.display_state = .sleeping ∧ b = false))) ∨
    (r = -EIO_code ∧ st' = st ∧ es = [] ∧
      st.display_state = .powered_off) ∨
    (r = 0 ∧ st.display_state = .awake ∧ b = false ∧
      st' = { st with display_state := .sleeping }) ∨
    (r = 0 ∧ st.display_state = .sleeping ∧ b = true ∧
      st' = { st with display_state := .awake }) := by
  rcases st with ⟨ds, fr, lb⟩
  rcases hw with ⟨d, blk, reg, t, per⟩
  cases ds <;> cases b
  · -- awake, false
    cases blk <;>
      · simp [zsw_display_control_sleep_ctrl,
          zsw_display_control_set_brightness] at h
        obtain ⟨rfl, rfl, rfl⟩ := h
        exact Or.inr (Or.inr (Or.inl (by simp)))
  · -- awake, true
    simp [zsw_display_control_sleep_ctrl] at h
    obtain ⟨rfl, rfl, rfl⟩ := h
    exact Or.inl (by simp)
  · -- sleeping, false
    simp [zsw_display_control_sleep_ctrl] at h
    obtain ⟨rfl, rfl, rfl⟩ := h
    exact Or.inl (by simp)
  · -- sleeping, true
    cases fr
    · cases blk
      · simp [zsw_display_control_sleep_ctrl,
          zsw_display_control_set_brightness] at h
        obtain ⟨rfl, rfl, rfl⟩ := h
        exact Or.inr (Or.inr (Or.inr (by simp)))
      · by_cases hl : lb > 100
        · simp [zsw_display_control_sleep_ctrl,
            zsw_display_control_set_brightness, hl] at h
        · by_cases h0 : lb = 0
          · subst h0
            simp [zsw_display_control_sleep_ctrl,
              zsw_display_control_set_brightness] at h
            obtain ⟨rfl, rfl, rfl⟩ := h
            exact Or.inr (Or.inr (Or.inr (by simp)))
          · simp [zsw_display_control_sleep_ctrl,
              zsw_display_control_set_brightness, hl, h0] at h
            obtain ⟨rfl, rfl, rfl⟩ := h
            exact Or.inr (Or.inr (Or.inr (by simp)))
    · simp [zsw_display_control_sleep_ctrl] at h
      obtain ⟨rfl, rfl, rfl⟩ := h
      exact Or.inr (Or.inr (Or.inr (by simp)))
  · -- powered_off, false
    simp [zsw_display_control_sleep_ctrl] at h
    obtain ⟨rfl, rfl, rfl⟩ := h
    exact Or.inr (Or.inl (by simp))
  · -- powered_off, true
    simp [zsw_display_control_sleep_ctrl] at h
    obtain ⟨rfl, rfl, rfl⟩ := h
    exact Or.inr (Or.inl (by simp))

theorem pwr_ctrl_outcome (hw : HwConfig) (st : DisplayCtrlSt) (b : Bool) :
    zsw_display_control_pwr_ctrl hw st b = (st, -EALREADY, []) ∨
    ((zsw_display_control_pwr_ctrl hw st b).2.1 = 0 ∧
      ((st.display_state = .sleeping ∧
        (zsw_display_control_pwr_ctrl hw st b).1.display_state =
          .powered_off) ∨
       (st.display_state = .powered_off ∧
        (zsw_display_control_pwr_ctrl hw st b).1.display_state =
          .sleeping))) := by
  rcases st with ⟨ds, fr, lb⟩
  rcases hw with ⟨d, blk, reg, t, per⟩
  cases ds <;> cases b <;> cases reg <;>
    simp [zsw_display_control_pwr_ctrl]

theorem pwr_ctrl_preserves_brightness (hw : HwConfig) (st : DisplayCtrlSt)
    (b : Bool) :
    (zsw_display_control_pwr_ctrl hw st b).1.last_brightness =
      st.last_brightness := by
  rcases st with ⟨ds, fr, lb⟩
  rcases hw with ⟨d, blk, reg, t, per⟩
  cases ds <;> cases b <;> cases reg <;>
    simp [zsw_display_control_pwr_ctrl]

theorem lvgl_render_fields (hw : HwConfig) (st st' : DisplayCtrlSt)
    (ms : Nat) (es : List Effect)
    (h : lvgl_render hw st ms = some (st', es)) :
    st'.display_state = st.display_state ∧
    st'.last_brightness = st.last_brightness ∧
    st'.first_render_since_poweron = false ∨
    (st' = st ∧ st.first_render_since_poweron = false) := by
  unfold lvgl_render at h
  by_cases hf : st.first_render_since_poweron
  · simp only [hf, if_true] at h
    cases hsb : zsw_display_control_set_brightness hw st st.last_brightness with
    | none => rw [hsb] at h; simp at h
    | some v =>
        obtain ⟨st2, e2⟩ := v
        rw [hsb] at h
        simp only [Option.some.injEq, Prod.mk.injEq] at h
        obtain ⟨rfl, -⟩ := h
        obtain ⟨hds, hfr, hlast, hzero⟩ :=
          set_brightness_fields hw st st2 st.last_brightness e2 hsb
        left
        refine ⟨hds, ?_, rfl⟩
        rcases hlast with h1 | h1 <;> simp [h1]
  · rw [if_neg hf] at h
    simp only [Bool.not_eq_true] at hf
    simp only [Option.some.injEq, Prod.mk.injEq] at h
    obtain ⟨rfl, -⟩ := h
    exact Or.inr ⟨rfl, hf⟩

/-- C3: every call to `sleep_ctrl` or `pwr_ctrl` whose result is the
HardwareUnavailable code `-EIO` performs zero side effects: the state
(display_state, last_brightness, first_render_since_poweron) is exactly
the entry state and the effect trace is empty, so no device action,
regulator command, backlight command or scheduler start/cancel is
issued. -/
theorem hardware_unavailable_rejection_is_pure (hw : HwConfig)
    (st st' : DisplayCtrlSt) (b : Bool) (r : Int) (es : List Effect)
    (h : zsw_display_control_sleep_ctrl hw st b = some (st', r, es)) :
    (r = -EIO_code → st' = st ∧ es = []) ∧
    ((zsw_display_control_pwr_ctrl hw st b).2.1 = -EIO_code →
      (zsw_display_control_pwr_ctrl hw st b).1 = st ∧
      (zsw_display_control_pwr_ctrl hw st b).2.2 = []) := by
  constructor
  · intro hr
    rcases sleep_ctrl_outcome hw st st' b r es h with
      ⟨h1, h2, h3, -⟩ | ⟨h1, h2, h3, -⟩ | ⟨h1, -, -, -⟩ | ⟨h1, -, -, -⟩
    · exact absurd (h1.symm.trans hr) (by decide)
    · exact ⟨h2, h3⟩
    · exact absurd (h1.symm.trans hr) (by decide)
    · exact absurd (h1.symm.trans hr) (by decide)
  · intro hr
    rcases pwr_ctrl_outcome hw st b with he | ⟨hz, -⟩
    · rw [he] at hr
      simp [EALREADY, EIO_code] at hr
    · exact absurd (hz.symm.trans hr) (by decide)

/-- C3 witness: from PoweredOff, a wake request is rejected with `-EIO`
and both the state and the effect trace are untouched. -/
theorem hardware_unavailable_rejection_is_pure_witness :
    zsw_display_control_sleep_ctrl hwAll stPoweredOff true =
      some (stPoweredOff, -EIO_code, []) ∧
    (stPoweredOff = stPoweredOff ∧ ([] : List Effect) = []) :=
  ⟨rfl, (hardware_unavailable_rejection_is_pure hwAll stPoweredOff
    stPoweredOff true (-EIO_code) [] rfl).1 rfl⟩

theorem pwr_ctrl_result_zero_iff (hw : HwConfig) (st : DisplayCtrlSt)
    (b : Bool) :
    ((zsw_display_control_pwr_ctrl hw st b).2.1 = 0 ↔
      (zsw_display_control_pwr_ctrl hw st b).1.display_state ≠
        st.display_state) ∧
    ((zsw_display_control_pwr_ctrl hw st b).2.1 ≠ 0 →
      (zsw_display_control_pwr_ctrl hw st b).1.display_state =
        st.display_state) := by
  rcases pwr_ctrl_outcome hw st b with he | ⟨hz, hc⟩
  · rw [he]
    simp [EALREADY]
  · refine ⟨⟨fun _ => ?_, fun _ => hz⟩, fun hnz => absurd hz hnz⟩
    rcases hc with ⟨h1, h2⟩ | ⟨h1, h2⟩ <;> rw [h1, h2] <;> decide

/-- C9: `sleep_ctrl` and `pwr_ctrl` return 0 exactly when the call
changed `display_state`; every non-zero result (`-EALREADY` or `-EIO`)
leaves `display_state` equal to its value at entry. -/
theorem result_zero_iff_display_state_changed (hw : HwConfig)
    (st st' : DisplayCtrlSt) (b : Bool) (r : Int) (es : List Effect)
    (h : zsw_display_control_sleep_ctrl hw st b = some (st', r, es)) :
    ((r = 0 ↔ st'.display_state ≠ st.display_state) ∧
      (r ≠ 0 → st'.display_state = st.display_state)) ∧
    (((zsw_display_control_pwr_ctrl hw st b).2.1 = 0 ↔
        (zsw_display_control_pwr_ctrl hw st b).1.display_state ≠
          st.display_state) ∧
      ((zsw_display_control_pwr_ctrl hw st b).2.1 ≠ 0 →
        (zsw_display_control_pwr_ctrl hw st b).1.display_state =
          st.display_state)) := by
  refine ⟨?_, pwr_ctrl_result_zero_iff hw st b⟩
  rcases sleep_ctrl_outcome hw st st' b r es h with
    ⟨rfl, rfl, rfl, -⟩ | ⟨rfl, rfl, rfl, -⟩ |
    ⟨rfl, hds, rfl, rfl⟩ | ⟨rfl, hds, rfl, rfl⟩
  · simp [EALREADY]
  · simp [EIO_code]
  · simp [hds]
  · simp [hds]

/-- C9 witness: waking from Sleeping returns 0 and does change the
display state. -/
theorem result_zero_iff_display_state_changed_witness :
    (0 : Int) = 0 ↔
      (⟨.awake, false, 30⟩ : DisplayCtrlSt).display_state ≠
        stSleeping.display_state :=
  (result_zero_iff_display_state_changed hwAll stSleeping
    ⟨.awake, false, 30⟩ true 0
    [Effect.pmAction .display .resume, Effect.pmAction .touch .resume,
      Effect.setPulse 3000, Effect.blankingOff,
      Effect.scheduleRenderWork 250] (by decide)).1.1

theorem pwr_ctrl_awake_eq (hw : HwConfig) (st : DisplayCtrlSt) (b : Bool)
    (hds : st.display_state = .awake) :
    zsw_display_control_pwr_ctrl hw st b = (st, -EALREADY, []) := by
  rcases st with ⟨ds, fr, lb⟩
  cases ds
  · cases b <;> rfl
  · simp at hds
  · simp at hds

theorem stepOp_display_state_cases (hw : HwConfig) (st st' : DisplayCtrlSt)
    (op : Op) (h : stepOp hw st op = some st') :
    st'.display_state = st.display_state ∨
    (st.display_state = .awake ∧ st'.display_state = .sleeping) ∨
    (st.display_state = .sleeping ∧ st'.display_state = .awake) ∨
    (st.display_state = .sleeping ∧ st'.display_state = .powered_off) ∨
    (st.display_state = .powered_off ∧ st'.display_state = .sleeping) := by
  cases op with
  | setBrightness p =>
      simp only [stepOp] at h
      cases hsb : zsw_display_control_set_brightness hw st p with
      | none => rw [hsb] at h; simp at h
      | some v =>
          obtain ⟨st2, es2⟩ := v
          rw [hsb] at h
          simp only [Option.map_some', Option.some.injEq] at h
          subst h
          exact Or.inl (set_brightness_fields hw st st2 p es2 hsb).1
  | sleepCtrl b =>
      simp only [stepOp] at h
      cases hsc : zsw_display_control_sleep_ctrl hw st b with
      | none => rw [hsc] at h; simp at h
      | some v =>
          obtain ⟨st2, r2, es2⟩ := v
          rw [hsc] at h
          simp only [Option.map_some', Option.some.injEq] at h
          subst h
          rcases sleep_ctrl_outcome hw st st2 b r2 es2 hsc with
            ⟨-, rfl, -, -⟩ | ⟨-, rfl, -, -⟩ |
            ⟨-, hds, -, rfl⟩ | ⟨-, hds, -, rfl⟩
          · exact Or.inl rfl
          · exact Or.inl rfl
          · exact Or.inr (Or.inl ⟨hds, rfl⟩)
          · exact Or.inr (Or.inr (Or.inl ⟨hds, rfl⟩))
  | pwrCtrl b =>
      simp only [stepOp, Option.some.injEq] at h
      subst h
      rcases pwr_ctrl_outcome hw st b with he | ⟨-, hc⟩
      · rw [he]
        exact Or.inl rfl
      · rcases hc with ⟨h1, h2⟩ | ⟨h1, h2⟩
        · exact Or.inr (Or.inr (Or.inr (Or.inl ⟨h1, h2⟩)))
        · exact Or.inr (Or.inr (Or.inr (Or.inr ⟨h1, h2⟩)))
  | render ms =>
      simp only [stepOp] at h
      cases hlr : lvgl_render hw st ms with
      | none => rw [hlr] at h; simp at h
      | some v =>
          obtain ⟨st2, es2⟩ := v
          rw [hlr] at h
          simp only [Option.map_some', Option.some.injEq] at h
          subst h
          rcases lvgl_render_fields hw st st2 ms es2 hlr with
            ⟨hds, -, -⟩ | ⟨rfl, -⟩
          · exact Or.inl hds
          · exact Or.inl rfl

/-- C6: the display state never steps directly between Awake and
PoweredOff in either direction under any single operation; in
particular `pwr_ctrl(false)` invoked in Awake is a no-op returning
`-EALREADY`, so PoweredOff is entered only from Sleeping and left only
to Sleeping. -/
theorem no_direct_awake_poweroff_step (hw : HwConfig)
    (st st' : DisplayCtrlSt) (op : Op) (h : stepOp hw st op = some st') :
    ¬ (st.display_state = .awake ∧ st'.display_state = .powered_off) ∧
    ¬ (st.display_state = .powered_off ∧ st'.display_state = .awake) ∧
    (st.display_state = .awake →
      zsw_display_control_pwr_ctrl hw st false = (st, -EALREADY, [])) := by
  refine ⟨?_, ?_, fun hds => pwr_ctrl_awake_eq hw st false hds⟩
  · rintro ⟨ha, hp⟩
    rcases stepOp_display_state_cases hw st st' op h with
      hc | ⟨h1, h2⟩ | ⟨h1, h2⟩ | ⟨h1, h2⟩ | ⟨h1, h2⟩ <;> simp_all
  · rintro ⟨ha, hp⟩
    rcases stepOp_display_state_cases hw st st' op h with
      hc | ⟨h1, h2⟩ | ⟨h1, h2⟩ | ⟨h1, h2⟩ | ⟨h1, h2⟩ <;> simp_all

/-- C6 witness: a power-off request issued while Awake is a no-op
returning `-EALREADY` (the step taken is the wake no-op). -/
theorem no_direct_awake_poweroff_step_witness :
    zsw_display_control_pwr_ctrl hwAll stAwake false =
      (stAwake, -EALREADY, []) :=
  (no_direct_awake_poweroff_step hwAll stAwake stAwake
    (Op.sleepCtrl true) rfl).2.2 rfl

theorem stepOp_preserves_last_ne_zero (hw : HwConfig)
    (st st' : DisplayCtrlSt) (op : Op) (hne : st.last_brightness ≠ 0)
    (h : stepOp hw st op = some st') : st'.last_brightness ≠ 0 := by
  cases op with
  | setBrightness p =>
      simp only [stepOp] at h
      cases hsb : zsw_display_control_set_brightness hw st p with
      | none => rw [hsb] at h; simp at h
      | some v =>
          obtain ⟨st2, es2⟩ := v
          rw [hsb] at h
          simp only [Option.map_some', Option.some.injEq] at h
          subst h
          obtain ⟨-, -, hlast, hzero⟩ :=
            set_brightness_fields hw st st2 p es2 hsb
          by_cases h0 : p = 0
          · rw [hzero h0]; exact hne
          · rcases hlast with h1 | h1
            · rw [h1]; exact hne
            · rw [h1]; exact h0
  | sleepCtrl b =>
      simp only [stepOp] at h
      cases hsc : zsw_display_control_sleep_ctrl hw st b with
      | none => rw [hsc] at h; simp at h
      | some v =>
          obtain ⟨st2, r2, es2⟩ := v
          rw [hsc] at h
          simp only [Option.map_some', Option.some.injEq] at h
          subst h
          rcases sleep_ctrl_outcome hw st st2 b r2 es2 hsc with
            ⟨-, rfl, -, -⟩ | ⟨-, rfl, -, -⟩ |
            ⟨-, -, -, rfl⟩ | ⟨-, -, -, rfl⟩ <;> exact hne
  | pwrCtrl b =>
      simp only [stepOp, Option.some.injEq] at h
      subst h
      rw [pwr_ctrl_preserves_brightness hw st b]
      exact hne
  | render ms =>
      simp only [stepOp] at h
      cases hlr : lvgl_render hw st ms with
      | none => rw [hlr] at h; simp at h
      | some v =>
          obtain ⟨st2, es2⟩ := v
          rw [hlr] at h
          simp only [Option.map_some', Option.some.injEq] at h
          subst h
          rcases lvgl_render_fields hw st st2 ms es2 hlr with
            ⟨-, hlast, -⟩ | ⟨rfl, -⟩
          · rw [hlast]; exact hne
          · exact hne

theorem runOps_preserves_last_ne_zero (hw : HwConfig) (ops : List Op) :
    ∀ st st' : DisplayCtrlSt, st.last_brightness ≠ 0 →
      runOps hw st ops = some st' → st'.last_brightness ≠ 0 := by
  induction ops with
  | nil =>
      intro st st' hne hr
      simp only [runOps, Option.some.injEq] at hr
      subst hr
      exact hne
  | cons op ops ih =>
      intro st st' hne hr
      unfold runOps at hr
      cases hs : stepOp hw st op with
      | none => rw [hs] at hr; simp at hr
      | some st1 =>
          rw [hs] at hr
          exact ih st1 st'
            (stepOp_preserves_last_ne_zero hw st st1 op hne hs) hr

/-- C5: for every operation sequence containing at least one nonzero
`set_brightness` request, `zsw_display_control_get_brightness` never
returns 0 at the end of a successful run from the init state; moreover a
request for 0 percent never overwrites `last_brightness`. -/
theorem get_brightness_never_zero (hw : HwConfig) (pre post : List Op)
    (p : Nat) (st' st1 st2 : DisplayCtrlSt) (es : List Effect)
    (hp : p ≠ 0)
    (hrun : runOps hw zsw_display_control_init
      (pre ++ Op.setBrightness p :: post) = some st')
    (h0 : zsw_display_control_set_brightness hw st1 0 = some (st2, es)) :
    zsw_display_control_get_brightness st' ≠ 0 ∧
    st2.last_brightness = st1.last_brightness := by
  refine ⟨?_, (set_brightness_fields hw st1 st2 0 es h0).2.2.2 rfl⟩
  exact runOps_preserves_last_ne_zero hw
    (pre ++ Op.setBrightness p :: post) zsw_display_control_init st'
    (by decide) hrun

/-- C5 witness: after the single operation `set_brightness(55)` from
init, `get_brightness` is nonzero; a `set_brightness(0)` call leaves
`last_brightness` untouched. -/
theorem get_brightness_never_zero_witness :
    zsw_display_control_get_brightness ⟨.sleeping, false, 55⟩ ≠ 0 ∧
    stAwake.last_brightness = stAwake.last_brightness :=
  get_brightness_never_zero hwAll [] [] 55 ⟨.sleeping, false, 55⟩
    stAwake stAwake [Effect.setPulse 0] (by decide) (by decide) (by decide)

/-- C4: after power-on has set `first_render_since_poweron`, a wake
transition issues no backlight command and leaves the flag set
(restoration is deferred); the first run of the render work then
commands the backlight at `last_brightness` and clears the flag; a wake
performed while the flag is clear commands the backlight at
`last_brightness` during the transition itself. -/
theorem wake_defers_brightness_until_first_render (hw : HwConfig)
    (st stw str : DisplayCtrlSt) (nextMs : Nat) :
    (st.display_state = .sleeping → st.first_render_since_poweron = true →
      ((zsw_display_control_sleep_ctrl hw st true).getD
        (st, 0, [])).2.2.all (fun e => ! isPulseCmd e) = true ∧
      ((zsw_display_control_sleep_ctrl hw st true).getD
        (st, 0, [])).1.first_render_since_poweron = true) ∧
    (str.first_render_since_poweron = true → hw.blkReady = true →
      str.last_brightness ≤ 100 →
      lvgl_render hw str nextMs =
        some ({ str with first_render_since_poweron := false },
          [Effect.setPulse (brightnessPulse hw str.last_brightness),
            Effect.scheduleRenderWork nextMs])) ∧
    (stw.display_state = .sleeping →
      stw.first_render_since_poweron = false → hw.blkReady = true →
      stw.last_brightness ≤ 100 →
      Effect.setPulse (brightnessPulse hw stw.last_brightness) ∈
        ((zsw_display_control_sleep_ctrl hw stw true).getD
          (stw, 0, [])).2.2) := by
  refine ⟨?_, ?_, ?_⟩
  · intro hds hfr
    rcases st with ⟨ds, fr, lb⟩
    simp only at hds hfr
    subst hds
    subst hfr
    rcases hw with ⟨d, blk, reg, t, per⟩
    cases t <;>
      simp [zsw_display_control_sleep_ctrl, isPulseCmd]
  · intro hfr hb hlb
    unfold lvgl_render
    rw [if_pos hfr, set_brightness_ready hw str str.last_brightness hb hlb]
    by_cases h0 : str.last_brightness = 0 <;> simp [h0]
  · intro hds hfr hb hlb
    rw [sleep_ctrl_sleeping_true_eq hw stw hds hlb]
    simp [hfr, hb]

/-- C4 witness: with all devices ready and the flag set, the first
render pass restores brightness (pulse for the remembered 30 percent)
and clears the flag. -/
theorem wake_defers_brightness_until_first_render_witness :
    lvgl_render hwAll ⟨.sleeping, true, 30⟩ 16 =
      some (⟨.sleeping, false, 30⟩,
        [Effect.setPulse 3000, Effect.scheduleRenderWork 16]) :=
  (wake_defers_brightness_until_first_render hwAll stSleeping stSleeping
    ⟨.sleeping, true, 30⟩ 16).2.1 rfl rfl (by decide)

/-- C7 counterexample: with the display panel not ready
(`displayReady = false`), the Awake→Sleeping transition still issues the
panel blanking call and the panel suspend device action — the code has
no readiness guard for the display panel, so panel-directed device
actions are not skipped as the claim states. -/
theorem panel_actions_issued_when_panel_not_ready :
    hwNoPanel.displayReady = false ∧
    (zsw_display_control_sleep_ctrl hwNoPanel stAwake false).isSome = true ∧
    Effect.pmAction DevTarget.display PmAction.suspend ∈
      ((zsw_display_control_sleep_ctrl hwNoPanel stAwake false).getD
        (stAwake, 0, [])).2.2 ∧
    Effect.blankingOn ∈
      ((zsw_display_control_sleep_ctrl hwNoPanel stAwake false).getD
        (stAwake, 0, [])).2.2 := by
  decide

/-- C7 (amended): a not-ready backlight makes `set_brightness` a silent
no-op (no duty-cycle command, state — hence `get_brightness` —
unchanged); sleep/wake transitions skip suspending/resuming a not-ready
touch controller; but device actions aimed at the display panel are
issued unconditionally, with no panel readiness check (e.g. the sleep
transition always issues the panel suspend action). -/
theorem not_ready_component_handling (hw : HwConfig)
    (st st' : DisplayCtrlSt) (p : Nat) (b : Bool) (r : Int)
    (es : List Effect) (a : PmAction) :
    (hw.blkReady = false →
      zsw_display_control_set_brightness hw st p = some (st, [])) ∧
    (hw.touchReady = false →
      zsw_display_control_sleep_ctrl hw st b = some (st', r, es) →
      Effect.pmAction DevTarget.touch a ∉ es) ∧
    (st.display_state = .awake →
      Effect.pmAction DevTarget.display PmAction.suspend ∈
        ((zsw_display_control_sleep_ctrl hw st false).getD
          (st, 0, [])).2.2) := by
  refine ⟨fun hb => set_brightness_not_ready hw st p hb, ?_, ?_⟩
  · intro ht h
    rcases st with ⟨ds, fr, lb⟩
    rcases hw with ⟨d, blk, reg, t, per⟩
    simp only at ht
    subst ht
    cases ds <;> cases b
    · -- awake, sleep request
      cases blk <;>
        · simp [zsw_display_control_sleep_ctrl,
            zsw_display_control_set_brightness] at h
          obtain ⟨-, -, rfl⟩ := h
          simp
    · -- awake, wake request
      simp [zsw_display_control_sleep_ctrl] at h
      obtain ⟨-, -, rfl⟩ := h
      simp
    · -- sleeping, sleep request
      simp [zsw_display_control_sleep_ctrl] at h
      obtain ⟨-, -, rfl⟩ := h
      simp
    · -- sleeping, wake request
      cases fr
      · cases blk
        · simp [zsw_display_control_sleep_ctrl,
            zsw_display_control_set_brightness] at h
          obtain ⟨-, -, rfl⟩ := h
          simp
        · by_cases hl : lb > 100
          · simp [zsw_display_control_sleep_ctrl,
              zsw_display_control_set_brightness, hl] at h
          · simp [zsw_display_control_sleep_ctrl,
              zsw_display_control_set_brightness, hl] at h
            obtain ⟨-, -, rfl⟩ := h
            simp
      · simp [zsw_display_control_sleep_ctrl] at h
        obtain ⟨-, -, rfl⟩ := h
        simp
    · -- powered off
      simp [zsw_display_control_sleep_ctrl] at h
      obtain ⟨-, -, rfl⟩ := h
      simp
    · simp [zsw_display_control_sleep_ctrl] at h
      obtain ⟨-, -, rfl⟩ := h
      simp
  · intro hds
    rw [sleep_ctrl_awake_false_eq hw st hds]
    simp

/-- C7 witness: with no device ready, `set_brightness(50)` is a silent
no-op, the sleep transition issues no touch action, and the panel
suspend action is still issued. -/
theorem not_ready_component_handling_witness :
    zsw_display_control_set_brightness hwNone stAwake 50 =
      some (stAwake, []) ∧
    Effect.pmAction DevTarget.touch PmAction.suspend ∉
      ([Effect.blankingOn, Effect.pmAction DevTarget.display
        PmAction.suspend, Effect.cancelRenderWork,
        Effect.invalidateScreen] : List Effect) ∧
    Effect.pmAction DevTarget.display PmAction.suspend ∈
      ((zsw_display_control_sleep_ctrl hwNone stAwake false).getD
        (stAwake, 0, [])).2.2 := by
  have h := not_ready_component_handling hwNone stAwake
    ⟨.sleeping, false, 30⟩ 50 false 0
    [Effect.blankingOn, Effect.pmAction .display .suspend,
      Effect.cancelRenderWork, Effect.invalidateScreen] PmAction.suspend
  exact ⟨h.1 rfl, h.2.1 rfl (by decide), h.2.2 rfl⟩

/-- C8 counterexample: with a native PWM period of 150 (not divisible by
100) and percent = 100, the code commands pulse width
`100 * (150 / 100) = 100`, not the claimed `100 * 150 / 100 = 150`
(the full period). -/
theorem pulse_width_formula_counterexample :
    zsw_display_control_set_brightness hwPeriod150 stAwake 100 =
      some (⟨.awake, false, 100⟩, [Effect.setPulse 100]) ∧
    (100 : Nat) ≠ 100 * hwPeriod150.period / 100 := by
  decide

/-- C8 (amended): with the backlight ready and percent ≤ 100, the
commanded pulse width is `percent * (period / 100)` — the period is
divided by 100 with integer division first. This equals
`percent * period / 100` (and hence gives the full period at
percent = 100) exactly when 100 divides the period; percent = 0 always
yields pulse width 0. -/
theorem set_brightness_pulse_width (hw : HwConfig) (st : DisplayCtrlSt)
    (p : Nat) (hb : hw.blkReady = true) (hp : p ≤ 100)
    (hper : hw.period < 2 ^ 32) :
    zsw_display_control_set_brightness hw st p =
      some ((if p ≠ 0 then { st with last_brightness := p } else st),
        [Effect.setPulse (p * (hw.period / 100))]) ∧
    (p = 0 → p * (hw.period / 100) = 0) ∧
    (100 ∣ hw.period →
      p * (hw.period / 100) = p * hw.period / 100) := by
  have hlt : p * (hw.period / 100) < 2 ^ 32 := by
    calc p * (hw.period / 100) ≤ 100 * (hw.period / 100) :=
          Nat.mul_le_mul_right _ hp
      _ = hw.period / 100 * 100 := Nat.mul_comm _ _
      _ ≤ hw.period := Nat.div_mul_le_self _ _
      _ < 2 ^ 32 := hper
  refine ⟨?_, fun h0 => by rw [h0, Nat.zero_mul], fun hdvd => ?_⟩
  · rw [set_brightness_ready hw st p hb hp]
    rw [brightnessPulse, Nat.mod_eq_of_lt hlt]
  · exact (Nat.mul_div_assoc p hdvd).symm

/-- C8 witness: all devices ready, period 10000, percent 55: the pulse
width is `55 * (10000 / 100)`. -/
theorem set_brightness_pulse_width_witness :
    zsw_display_control_set_brightness hwAll stSleeping 55 =
      some ((if (55 : Nat) ≠ 0 then
          { stSleeping with last_brightness := 55 } else stSleeping),
        [Effect.setPulse (55 * (hwAll.period / 100))]) ∧
    ((55 : Nat) = 0 → 55 * (hwAll.period / 100) = 0) ∧
    (100 ∣ hwAll.period →
      55 * (hwAll.period / 100) = 55 * hwAll.period / 100) :=
  set_brightness_pulse_width hwAll stSleeping 55 rfl (by decide)
    (by decide)

/-- C10: when the backlight device is not ready, `set_brightness`
returns immediately for every percent argument, including values above
100: the readiness check precedes the range assertion, so no assertion
failure occurs (the result is `some`), no effect is issued and the
state is unmodified. -/
theorem set_brightness_not_ready_skips_assert (hw : HwConfig)
    (st : DisplayCtrlSt) (p : Nat) (h : hw.blkReady = false) :
    zsw_display_control_set_brightness hw st p = some (st, []) :=
  set_brightness_not_ready hw st p h

/-- C10 witness: with the backlight absent, an out-of-range request of
200 percent still returns successfully with no effect and no state
change. -/
theorem set_brightness_not_ready_skips_assert_witness :
    zsw_display_control_set_brightness hwNoBlk stAwake 200 =
      some (stAwake, []) :=
  set_brightness_not_ready_skips_assert hwNoBlk stAwake 200 rfl
